import Mathlib

/-!
Verification of the HIREX front-end request/cache/render lifecycle.

The definitions below are a shallow embedding of the JavaScript sources:
the submit/reset handlers and `persistResults` of `main.js` (v1.1.0), the
localStorage load block and JD-Fit-Score card of `preview.js`, the
`lsGet`/`lsSet` storage wrappers of `util.js` (v1.2.0), and the toast
utilities of `ui.js` (v1.2.1) and `preview.js`.  Browser-local storage is
modelled as a partial map from keys to strings; JavaScript string
truthiness, `trim`, `parseInt`, `Math.round` and `replace` with a
whitespace-run pattern are modelled explicitly.
-/

namespace Hirex

/-- Characters treated as whitespace by JavaScript `trim` and the `\s`
regexp class (ASCII whitespace plus the common Unicode ones the code can
meet). -/
def isJsWhitespace (c : Char) : Bool :=
  c = ' ' || c = '\t' || c = '\n' || c = '\r' || c = '\x0b' || c = '\x0c' ||
  c = '\u00A0' || c = '\uFEFF'

/-- JavaScript `String.prototype.trim`. -/
def jsTrim (s : String) : String :=
  ⟨((s.data.dropWhile isJsWhitespace).reverse.dropWhile isJsWhitespace).reverse⟩

/-- JavaScript `String.prototype.toLowerCase` (ASCII file names). -/
def jsToLower (s : String) : String :=
  ⟨s.data.map Char.toLower⟩

/-- JavaScript `x || d` on an optional string: `null`/`undefined` and the
empty string are falsy and yield the default. -/
def jsOr (v : Option String) (d : String) : String :=
  match v with
  | some s => if s = "" then d else s
  | none => d

/-- Whether `pat` occurs as a contiguous run of `l`, checked at every
start position. -/
def strContainsAux (pat : List Char) : List Char → Bool
  | [] => pat.isEmpty
  | c :: rest => pat.isPrefixOf (c :: rest) || strContainsAux pat rest

/-- JavaScript `a.includes(b)`: `b` occurs as a contiguous substring. -/
def strContains (s pat : String) : Bool :=
  strContainsAux pat.data s.data

/-- Digits to a natural number, most significant first. -/
def digitsToNat (cs : List Char) : Nat :=
  cs.foldl (fun n c => n * 10 + (c.toNat - '0'.toNat)) 0

/-- JavaScript `parseInt(s, 10)`: trim, optional sign, leading decimal
digits; `none` models `NaN` (no digits). -/
def jsParseInt (s : String) : Option Int :=
  let t := jsTrim s
  let signAndRest : Int × List Char :=
    match t.data with
    | '-' :: cs => (-1, cs)
    | '+' :: cs => (1, cs)
    | cs => (1, cs)
  let digits := signAndRest.2.takeWhile Char.isDigit
  if digits.isEmpty then none
  else some (signAndRest.1 * (digitsToNat digits : Int))

/-- JavaScript `Math.round`: round half toward positive infinity, that is
`⌊q + 1/2⌋`, computed as a floor division so that it evaluates (the
`Rat` field operations are irreducible); `jsRound_eq_floor` below checks
the equality. -/
def jsRound (q : ℚ) : Int :=
  (2 * q.num + q.den).fdiv (2 * q.den)

/-- `coverage_ratio * 100`, written on the numerator so that it evaluates;
`scaleBy100_eq` below checks it equals multiplication by 100. -/
def scaleBy100 (q : ℚ) : ℚ :=
  mkRat (q.num * 100) q.den

/-- One step of `replace(/\s+/g, "_")`: the boolean records whether we are
inside a whitespace run that has already produced its underscore. -/
def squashWsAux : Bool → List Char → List Char
  | _, [] => []
  | inRun, c :: rest =>
    if isJsWhitespace c then
      if inRun then squashWsAux true rest
      else '_' :: squashWsAux true rest
    else c :: squashWsAux false rest

/-- JavaScript `s.replace(/\s+/g, "_")`: every maximal whitespace run
becomes a single underscore. -/
def jsReplaceWs (s : String) : String :=
  ⟨squashWsAux false s.data⟩

/-- `true` iff the string has no JavaScript-whitespace character. -/
def hasNoWs (s : String) : Bool :=
  s.data.all (fun c => !isJsWhitespace c)

/-- JSON escaping of one character (quote and backslash; the code never
writes control characters into the strings it stores). -/
def jsonEscapeChar (c : Char) : List Char :=
  if c = '\\' then ['\\', '\\'] else if c = '"' then ['\\', '"'] else [c]

/-- JSON escaping of a string. -/
def jsonEscape (s : String) : String :=
  ⟨s.data.flatMap jsonEscapeChar⟩

/-- Comma-separated concatenation, as between JSON array elements. -/
def joinCommaSep : List String → String
  | [] => ""
  | [s] => s
  | s :: rest => s ++ "," ++ joinCommaSep rest

/-- `JSON.stringify` on an array of strings. -/
def jsonStringifyStrList (l : List String) : String :=
  "[" ++ joinCommaSep (l.map (fun s => "\"" ++ jsonEscape s ++ "\"")) ++ "]"

/-- `JSON.stringify` on an array of integers (the history arrays are
treated opaquely by the code: serialized on write, only their length read
back; we model their entries as integers). -/
def jsonStringifyIntList (l : List Int) : String :=
  "[" ++ joinCommaSep (l.map toString) ++ "]"

/-- Split a character list at every occurrence of a separator character
(`String.split` on a one-character separator). -/
def splitOnCharAux (sep : Char) : List Char → List Char → List (List Char)
  | [], acc => [acc.reverse]
  | c :: rest, acc =>
    if c = sep then acc.reverse :: splitOnCharAux sep rest []
    else splitOnCharAux sep rest (c :: acc)

/-- Strict decimal integer with surrounding whitespace, as a JSON array
element; `none` on anything else. -/
def parseDecInt (s : String) : Option Int :=
  let t := jsTrim s
  match t.data with
  | [] => none
  | '-' :: cs =>
    if cs ≠ [] ∧ cs.all Char.isDigit then some (-(digitsToNat cs : Int)) else none
  | cs =>
    if cs.all Char.isDigit then some (digitsToNat cs : Int) else none

/-- `JSON.parse` restricted to the flat integer arrays this client writes;
`none` models a thrown `SyntaxError` (or a parse result without a usable
`length`). -/
def jsonParseIntList (s : String) : Option (List Int) :=
  let t := jsTrim s
  match t.data with
  | '[' :: rest =>
    if rest ≠ [] ∧ rest.getLast? = some ']' then
      let innerS := jsTrim ⟨rest.dropLast⟩
      if innerS = "" then some []
      else (splitOnCharAux ',' innerS.data []).mapM (fun cs => parseDecInt ⟨cs⟩)
    else none
  | _ => none

/-! ### Browser-local storage -/

/-- `localStorage` as a partial map from keys to stored strings. -/
abbrev Store := String → Option String

/-- A storage with no keys set. -/
def emptyStore : Store := fun _ => none

/-- `localStorage.setItem`. -/
def setItem (k v : String) (st : Store) : Store :=
  fun q => if q = k then some v else st q

/-- `localStorage.removeItem`. -/
def removeItem (k : String) (st : Store) : Store :=
  fun q => if q = k then none else st q

/-! ### The backend payload (`data` parsed from `/api/optimize` JSON) -/

/-- JSON body returned by the backend, as read by `main.js`.  `Option`
models presence of a field (absent and `null` are both `none`); the
numeric score is an integer 0–100 per the data model and the coverage
ratio an exact rational in `[0, 1]`. -/
structure Payload where
  tex_string : Option String := none
  pdf_base64 : Option String := none
  pdf_base64_humanized : Option String := none
  company_name : Option String := none
  role : Option String := none
  saved_paths : Option (List String) := none
  rating_score : Option Int := none
  coverage_ratio : Option ℚ := none
  rating_history : Option (List Int) := none
  coverage_history : Option (List Int) := none
  deriving DecidableEq

/-- Truthiness of `data?.tex_string`. -/
def texTruthy (d : Payload) : Bool :=
  match d.tex_string with
  | some s => s != ""
  | none => false

/-- The JD-Fit score derivation of `persistResults` (`main.js` lines
65–70): explicit numeric `rating_score` first, else `coverage_ratio`
scaled to 0–100 and rounded, else nothing. -/
def persistScore (d : Payload) : Option Int :=
  match d.rating_score with
  | some r => some r
  | none =>
    match d.coverage_ratio with
    | some c => some (jsRound (scaleBy100 c))
    | none => none

/-- The conditional `hirex_saved_paths` write of `persistResults`. -/
def persistSavedStep (d : Payload) (st : Store) : Store :=
  match d.saved_paths with
  | some l => setItem "hirex_saved_paths" (jsonStringifyStrList l) st
  | none => st

/-- The conditional `hirex_rating_score` write of `persistResults`. -/
def persistScoreStep (d : Payload) (st : Store) : Store :=
  match persistScore d with
  | some n => setItem "hirex_rating_score" (toString n) st
  | none => st

/-- `persistResults(data, useHumanize)` of `main.js` (lines 47–89): the
eight unconditional `kv` writes in object order, then the conditional
saved-paths write, the conditional score write, and the unconditional
history write. -/
def persistResults (d : Payload) (useHumanize : Bool) (now : Int) (st : Store) : Store :=
  setItem "hirex_rating_history"
    (jsonStringifyIntList ((d.rating_history).getD ((d.coverage_history).getD [])))
    (persistScoreStep d
      (persistSavedStep d
        (setItem "hirex_version" "v1.1.0"
          (setItem "hirex_use_humanize" (if useHumanize then "true" else "false")
            (setItem "hirex_role" (jsOr d.role "UnknownRole")
              (setItem "hirex_company" (jsOr d.company_name "UnknownCompany")
                (setItem "hirex_timestamp" (toString now)
                  (setItem "hirex_pdf_humanized" (jsOr d.pdf_base64_humanized "")
                    (setItem "hirex_pdf" (jsOr d.pdf_base64 "")
                      (setItem "hirex_tex" (jsOr d.tex_string "") st))))))))))

/-! ### The preview page (`preview.js` lines 33–71) -/

/-- The values `preview.js` reads back from storage on page load. -/
structure PreviewState where
  texString : String
  pdfB64 : String
  pdfB64Humanized : String
  company : String
  role : String
  ratingScore : Option Int
  ratingRounds : Nat
  deriving DecidableEq

/-- The localStorage load block of `preview.js` (lines 33–45): raw reads
with `|| ""` defaults, whitespace-to-underscore normalization of company
and role, `parseInt` of the score and the guarded `JSON.parse` of the
history whose failures leave the round count at 0. -/
def previewLoad (st : Store) : PreviewState :=
  let ratingScoreRaw := jsOr (st "hirex_rating_score") ""
  { texString := jsOr (st "hirex_tex") ""
    pdfB64 := jsOr (st "hirex_pdf") ""
    pdfB64Humanized := jsOr (st "hirex_pdf_humanized") ""
    company := jsReplaceWs (jsOr (st "hirex_company") "Company")
    role := jsReplaceWs (jsOr (st "hirex_role") "Role")
    ratingScore := jsParseInt (if ratingScoreRaw = "" then "0" else ratingScoreRaw)
    ratingRounds :=
      match jsonParseIntList (jsOr (st "hirex_rating_history") "[]") with
      | some l => l.length
      | none => 0 }

/-- The three text fragments of the JD Fit Score card markup. -/
structure ScoreCard where
  heading : String
  roundsText : String
  scoreText : String
  deriving DecidableEq

/-- The JD Fit Score card block of `preview.js` (lines 61–71): shown only
when the parsed score is a number greater than 0. -/
def previewScoreCard (st : Store) : Option ScoreCard :=
  let p := previewLoad st
  match p.ratingScore with
  | none => none
  | some sc =>
    if 0 < sc then
      some { heading := "🎯 JD Fit Score"
             roundsText :=
               "Optimized in " ++
                 toString (if p.ratingRounds = 0 then 1 else p.ratingRounds) ++ " round(s)"
             scoreText := toString sc ++ "/100" }
    else none

/-! ### The submit handler (`main.js` lines 94–170) -/

/-- The selected file, when one is present. -/
structure FileInfo where
  name : String
  deriving DecidableEq

/-- `isValidFile` of `main.js` (line 39): a file is present and its
lowercased name ends in `.tex`. -/
def isValidFile (f : Option FileInfo) : Bool :=
  match f with
  | some fi => ".tex".data.isSuffixOf (jsToLower fi.name).data
  | none => false

/-- The form inputs read by the submit handler. -/
structure SubmitInput where
  file : Option FileInfo
  jdRaw : String
  useHumanize : Bool

/-- How the awaited `fetch` resolved: an HTTP response (with its status,
its body as text for the error path, and the result of `res.json()` —
`Except.error` models a JSON `SyntaxError` message), an abort (fired by
the 180 s timeout or the user's cancel click), the `TypeError` a failed
connection produces, or any other rejection. -/
inductive TransportOutcome where
  | response (status : Nat) (bodyText : String) (jsonBody : Except String Payload)
  | abortError
  | failedToFetch
  | otherFailure (name msg : String)

/-- Observable result of one run of the submit handler. -/
structure SubmitResult where
  transportInvoked : Bool
  toast : String
  store : Store
  navigationScheduled : Bool
  formDisabled : Bool
  cancelBtnPresent : Bool

/-- The `catch` branch of the submit handler (lines 158–164): dispatch on
the error's name and message. -/
def catchToast (errName errMsg : String) : String :=
  if errName = "AbortError" then "⚠️ Optimization canceled or timed out (3 min limit)."
  else if strContains errMsg "Failed to fetch" then "🌐 Network error — check FastAPI connection."
  else "❌ " ++ (if errMsg = "" then "Unexpected error occurred." else errMsg)

/-- The success toast (lines 147–156). -/
def successToast (d : Payload) : String :=
  let score :=
    match d.rating_score with
    | some r => toString r ++ "/100"
    | none =>
      match d.coverage_ratio with
      | some c => toString (jsRound (scaleBy100 c)) ++ "/100"
      | none => "n/a"
  "✅ Optimized for " ++ jsOr d.company_name "Company" ++ " (" ++ jsOr d.role "Role" ++
    ") — JD Fit " ++ score

/-- The `finally` block (lines 165–169): re-enable the form and remove the
cancel affordance, whatever branch ran. -/
def finallyCleanup (r : SubmitResult) : SubmitResult :=
  { r with formDisabled := false, cancelBtnPresent := false }

/-- The submit handler of `main.js` (lines 94–170): validation gate, then
the `try`/`catch` over the transport outcome, then the unconditional
`finally`.  On an HTTP response the cancel button is removed before the
status check (line 135). -/
def runSubmit (inp : SubmitInput) (oc : TransportOutcome) (now : Int) (st : Store) :
    SubmitResult :=
  if isValidFile inp.file = false ∨ jsTrim inp.jdRaw = "" then
    { transportInvoked := false
      toast := "⚠️ Please upload a valid .tex file and paste the job description."
      store := st, navigationScheduled := false
      formDisabled := false, cancelBtnPresent := false }
  else
    finallyCleanup
      (match oc with
       | .response status bodyText jsonBody =>
         let base : SubmitResult :=
           { transportInvoked := true
             toast := "⏳ Optimizing your resume... This may take up to 2–3 minutes."
             store := st, navigationScheduled := false
             formDisabled := true, cancelBtnPresent := false }
         if status < 200 ∨ 300 ≤ status then
           let errMsg := if bodyText = "" then "HTTP " ++ toString status else bodyText
           { base with toast := catchToast "Error" errMsg }
         else
           match jsonBody with
           | .error msg => { base with toast := catchToast "SyntaxError" msg }
           | .ok data =>
             if texTruthy data = false then
               { base with toast := catchToast "Error" "Empty LaTeX output from backend." }
             else
               { base with toast := successToast data
                           store := persistResults data inp.useHumanize now st
                           navigationScheduled := true }
       | .abortError =>
         { transportInvoked := true, toast := catchToast "AbortError" ""
           store := st, navigationScheduled := false
           formDisabled := true, cancelBtnPresent := true }
       | .failedToFetch =>
         { transportInvoked := true, toast := catchToast "TypeError" "Failed to fetch"
           store := st, navigationScheduled := false
           formDisabled := true, cancelBtnPresent := true }
       | .otherFailure name msg =>
         { transportInvoked := true, toast := catchToast name msg
           store := st, navigationScheduled := false
           formDisabled := true, cancelBtnPresent := true })

/-- A cancel click arriving after the handler finished: the button's
`onclick` can only run while the button is still attached. -/
def lateCancelClick (r : SubmitResult) (clicked : Bool) : SubmitResult :=
  if clicked ∧ r.cancelBtnPresent then
    { r with cancelBtnPresent := false, toast := "🛑 Optimization canceled by user." }
  else r

/-- Whether the controller is back in its idle state: inputs enabled and
no cancel affordance. -/
def isIdle (r : SubmitResult) : Prop :=
  r.formDisabled = false ∧ r.cancelBtnPresent = false

/-! ### The reset handler (`main.js` lines 175–190) -/

/-- The eleven keys the reset handler removes, in source order. -/
def resetKeys : List String :=
  ["hirex_tex", "hirex_timestamp", "hirex_company", "hirex_role",
   "hirex_use_humanize", "hirex_pdf", "hirex_pdf_humanized", "hirex_saved_paths",
   "hirex_rating_score", "hirex_rating_history", "hirex_version"]

/-- The reset handler: `forEach(k => localStorage.removeItem(k))`. -/
def resetHandler (st : Store) : Store :=
  resetKeys.foldl (fun s k => removeItem k s) st

/-! ### The safe storage wrappers (`util.js` lines 193–198) -/

/-- The underlying browser storage, which may throw on any access (quota
exceeded, storage disabled): each operation either returns or raises. -/
structure RawStorage where
  getItem : String → Except String (Option String)
  setItem : String → String → Except String Unit

/-- `lsGet` of `util.js`: `try return getItem catch return null`. -/
def lsGet (ls : RawStorage) (key : String) : Option String :=
  match ls.getItem key with
  | .ok v => v
  | .error _ => none

/-- `lsSet` of `util.js`: `try setItem; return true catch return false`. -/
def lsSet (ls : RawStorage) (key val : String) : Bool :=
  match ls.setItem key val with
  | .ok _ => true
  | .error _ => false

/-! ### Toast models (`ui.js` v1.2.1 lines 27–33 and `preview.js` lines 19–28) -/

/-- The single toast element as `HIREX.toast` drives it: its text, the
`visible` class, and the one pending auto-dismiss timer handle stored in
`toast._timeout` (`clearTimeout` discards it before each new schedule). -/
structure GlobalToast where
  text : String
  visibleClass : Bool
  pending : Option Nat
  deriving DecidableEq

/-- `HIREX.toast(msg, duration)` called at time `now`: set the text, add
the class, clear the stored timer and store a fresh one. -/
def hirexToastShow (_st : GlobalToast) (msg : String) (duration now : Nat) : GlobalToast :=
  { text := msg, visibleClass := true, pending := some (now + duration) }

/-- Advance the clock to time `t`: the stored timer fires if due. -/
def hirexToastElapse (st : GlobalToast) (t : Nat) : GlobalToast :=
  match st.pending with
  | some ft => if ft ≤ t then { st with visibleClass := false, pending := none } else st
  | none => st

/-- The toast element as `preview.js`'s local `showToast` drives it: text,
`display`/`opacity` styles, and the never-cleared timers it piles up —
fade timers set opacity to 0 and schedule a hide timer 300 ms later. -/
structure PreviewToast where
  text : String
  displayBlock : Bool
  opacityFull : Bool
  fadeTimers : List Nat
  hideTimers : List Nat
  deriving DecidableEq

/-- The toast before any call: hidden. -/
def previewToastInit : PreviewToast :=
  { text := "", displayBlock := false, opacityFull := false,
    fadeTimers := [], hideTimers := [] }

/-- `showToast(message, timeout)` of `preview.js` called at time `now`:
set text and styles and add a fade timer; no `clearTimeout` anywhere. -/
def previewToastShow (st : PreviewToast) (msg : String) (duration now : Nat) : PreviewToast :=
  { st with text := msg, displayBlock := true, opacityFull := true,
            fadeTimers := st.fadeTimers ++ [now + duration] }

/-- Advance the clock to time `t`: every due fade timer fires (opacity 0,
hide timer queued 300 ms later), then every due hide timer fires. -/
def previewToastElapse (st : PreviewToast) (t : Nat) : PreviewToast :=
  let fired := st.fadeTimers.filter (fun ft => ft ≤ t)
  let st1 :=
    if fired = [] then st
    else { st with opacityFull := false
                   fadeTimers := st.fadeTimers.filter (fun ft => ¬ ft ≤ t)
                   hideTimers := st.hideTimers ++ fired.map (fun ft => ft + 300) }
  let hfired := st1.hideTimers.filter (fun ht => ht ≤ t)
  if hfired = [] then st1
  else { st1 with displayBlock := false
                  hideTimers := st1.hideTimers.filter (fun ht => ¬ ht ≤ t) }

/-- Whether the preview toast is visible: displayed and fully opaque. -/
def previewToastVisible (st : PreviewToast) : Bool :=
  st.displayBlock && st.opacityFull

/-! ### The fit-tier label as the spec words it -/

/-- Modelled from the spec (§3 CachedState): the fit-tier label
"Excellent" ≥ 90, "Strong" ≥ 75, "Moderate" ≥ 60, "Low" > 0, else
"Awaiting Analysis".  No such computation exists in the source; this
definition exists only to compare the spec's words with the code. -/
def specFitTierLabel (score : Int) : String :=
  if 90 ≤ score then "Excellent"
  else if 75 ≤ score then "Strong"
  else if 60 ≤ score then "Moderate"
  else if 0 < score then "Low"
  else "Awaiting Analysis"

/-- The five tier-label strings of the spec. -/
def tierLabels : List String :=
  ["Excellent", "Strong", "Moderate", "Low", "Awaiting Analysis"]

/-! ## Supporting lemmas -/

/-- `jsRound` is `⌊q + 1/2⌋`, i.e. JavaScript `Math.round`. -/
theorem jsRound_eq_floor (q : ℚ) : jsRound q = Int.floor (q + 1 / 2) := by
  have hd : ((q.den : ℚ)) ≠ 0 := by exact_mod_cast q.den_nz
  have hnum : (q.num : ℚ) = q * (q.den : ℚ) := (div_eq_iff hd).mp (Rat.num_div_den q)
  have hd0 : ((2 * q.den : ℕ) : ℚ) ≠ 0 := by
    exact_mod_cast Nat.mul_ne_zero two_ne_zero q.den_nz
  have h : q + 1 / 2 = ((2 * q.num + (q.den : ℤ) : ℤ) : ℚ) / ((2 * q.den : ℕ) : ℚ) := by
    rw [eq_div_iff hd0]
    push_cast
    rw [hnum]
    ring
  rw [h, Rat.floor_intCast_div_natCast, jsRound,
    Int.fdiv_eq_ediv _ (by positivity)]
  push_cast
  ring_nf

/-- `scaleBy100` is multiplication by 100. -/
theorem scaleBy100_eq (q : ℚ) : scaleBy100 q = q * 100 := by
  have hd : ((q.den : ℚ)) ≠ 0 := by exact_mod_cast q.den_nz
  have hnum : (q.num : ℚ) = q * (q.den : ℚ) := (div_eq_iff hd).mp (Rat.num_div_den q)
  rw [scaleBy100, Rat.mkRat_eq_div, div_eq_iff hd]
  push_cast
  rw [hnum]
  ring

/-- Reading the key just written. -/
theorem setItem_get_eq (k v : String) (st : Store) : setItem k v st k = some v := by
  simp [setItem]

/-- Reading another key is unaffected by a write. -/
theorem setItem_get_ne {q k : String} (v : String) (st : Store) (h : q ≠ k) :
    setItem k v st q = st q := by
  simp [setItem, h]

/-- Reading the key just removed. -/
theorem removeItem_get_eq (k : String) (st : Store) : removeItem k st k = none := by
  simp [removeItem]

/-- Reading another key is unaffected by a removal. -/
theorem removeItem_get_ne {q k : String} (st : Store) (h : q ≠ k) :
    removeItem k st q = st q := by
  simp [removeItem, h]

/-- The conditional saved-paths write never touches other keys. -/
theorem persistSavedStep_get_ne {q : String} (d : Payload) (st : Store)
    (h : q ≠ "hirex_saved_paths") : persistSavedStep d st q = st q := by
  cases hs : d.saved_paths <;> simp [persistSavedStep, hs, setItem, h]

/-- The conditional score write never touches other keys. -/
theorem persistScoreStep_get_ne {q : String} (d : Payload) (st : Store)
    (h : q ≠ "hirex_rating_score") : persistScoreStep d st q = st q := by
  cases hs : persistScore d <;> simp [persistScoreStep, hs, setItem, h]

/-- The document text the persist step leaves under `hirex_tex`. -/
theorem persist_get_tex (d : Payload) (hz : Bool) (now : Int) (st : Store) :
    persistResults d hz now st "hirex_tex" = some (jsOr d.tex_string "") := by
  rw [persistResults, setItem_get_ne _ _ (by decide),
    persistScoreStep_get_ne _ _ (by decide), persistSavedStep_get_ne _ _ (by decide),
    setItem_get_ne _ _ (by decide), setItem_get_ne _ _ (by decide),
    setItem_get_ne _ _ (by decide), setItem_get_ne _ _ (by decide),
    setItem_get_ne _ _ (by decide), setItem_get_ne _ _ (by decide),
    setItem_get_ne _ _ (by decide), setItem_get_eq]

/-- The primary binary the persist step leaves under `hirex_pdf`. -/
theorem persist_get_pdf (d : Payload) (hz : Bool) (now : Int) (st : Store) :
    persistResults d hz now st "hirex_pdf" = some (jsOr d.pdf_base64 "") := by
  rw [persistResults, setItem_get_ne _ _ (by decide),
    persistScoreStep_get_ne _ _ (by decide), persistSavedStep_get_ne _ _ (by decide),
    setItem_get_ne _ _ (by decide), setItem_get_ne _ _ (by decide),
    setItem_get_ne _ _ (by decide), setItem_get_ne _ _ (by decide),
    setItem_get_ne _ _ (by decide), setItem_get_ne _ _ (by decide), setItem_get_eq]

/-- The secondary binary the persist step leaves under `hirex_pdf_humanized`. -/
theorem persist_get_pdfHumanized (d : Payload) (hz : Bool) (now : Int) (st : Store) :
    persistResults d hz now st "hirex_pdf_humanized" =
      some (jsOr d.pdf_base64_humanized "") := by
  rw [persistResults, setItem_get_ne _ _ (by decide),
    persistScoreStep_get_ne _ _ (by decide), persistSavedStep_get_ne _ _ (by decide),
    setItem_get_ne _ _ (by decide), setItem_get_ne _ _ (by decide),
    setItem_get_ne _ _ (by decide), setItem_get_ne _ _ (by decide),
    setItem_get_ne _ _ (by decide), setItem_get_eq]

/-- The timestamp the persist step leaves under `hirex_timestamp`. -/
theorem persist_get_timestamp (d : Payload) (hz : Bool) (now : Int) (st : Store) :
    persistResults d hz now st "hirex_timestamp" = some (toString now) := by
  rw [persistResults, setItem_get_ne _ _ (by decide),
    persistScoreStep_get_ne _ _ (by decide), persistSavedStep_get_ne _ _ (by decide),
    setItem_get_ne _ _ (by decide), setItem_get_ne _ _ (by decide),
    setItem_get_ne _ _ (by decide), setItem_get_ne _ _ (by decide), setItem_get_eq]

/-- The organization name the persist step leaves under `hirex_company`. -/
theorem persist_get_company (d : Payload) (hz : Bool) (now : Int) (st : Store) :
    persistResults d hz now st "hirex_company" =
      some (jsOr d.company_name "UnknownCompany") := by
  rw [persistResults, setItem_get_ne _ _ (by decide),
    persistScoreStep_get_ne _ _ (by decide), persistSavedStep_get_ne _ _ (by decide),
    setItem_get_ne _ _ (by decide), setItem_get_ne _ _ (by decide),
    setItem_get_ne _ _ (by decide), setItem_get_eq]

/-- The position name the persist step leaves under `hirex_role`. -/
theorem persist_get_role (d : Payload) (hz : Bool) (now : Int) (st : Store) :
    persistResults d hz now st "hirex_role" = some (jsOr d.role "UnknownRole") := by
  rw [persistResults, setItem_get_ne _ _ (by decide),
    persistScoreStep_get_ne _ _ (by decide), persistSavedStep_get_ne _ _ (by decide),
    setItem_get_ne _ _ (by decide), setItem_get_ne _ _ (by decide), setItem_get_eq]

/-- The humanize flag the persist step leaves under `hirex_use_humanize`. -/
theorem persist_get_useHumanize (d : Payload) (hz : Bool) (now : Int) (st : Store) :
    persistResults d hz now st "hirex_use_humanize" =
      some (if hz then "true" else "false") := by
  rw [persistResults, setItem_get_ne _ _ (by decide),
    persistScoreStep_get_ne _ _ (by decide), persistSavedStep_get_ne _ _ (by decide),
    setItem_get_ne _ _ (by decide), setItem_get_eq]

/-- The cache version tag the persist step leaves under `hirex_version`. -/
theorem persist_get_version (d : Payload) (hz : Bool) (now : Int) (st : Store) :
    persistResults d hz now st "hirex_version" = some "v1.1.0" := by
  rw [persistResults, setItem_get_ne _ _ (by decide),
    persistScoreStep_get_ne _ _ (by decide), persistSavedStep_get_ne _ _ (by decide),
    setItem_get_eq]

/-- The history the persist step leaves under `hirex_rating_history`. -/
theorem persist_get_history (d : Payload) (hz : Bool) (now : Int) (st : Store) :
    persistResults d hz now st "hirex_rating_history" =
      some (jsonStringifyIntList ((d.rating_history).getD ((d.coverage_history).getD []))) := by
  rw [persistResults, setItem_get_eq]

/-- A provided saved-paths array is written under `hirex_saved_paths`. -/
theorem persist_get_saved_some (d : Payload) (hz : Bool) (now : Int) (st : Store)
    (l : List String) (h : d.saved_paths = some l) :
    persistResults d hz now st "hirex_saved_paths" = some (jsonStringifyStrList l) := by
  rw [persistResults, setItem_get_ne _ _ (by decide),
    persistScoreStep_get_ne _ _ (by decide)]
  simp only [persistSavedStep, h]
  rw [setItem_get_eq]

/-- With no saved-paths array the key `hirex_saved_paths` keeps its prior
value. -/
theorem persist_get_saved_none (d : Payload) (hz : Bool) (now : Int) (st : Store)
    (h : d.saved_paths = none) :
    persistResults d hz now st "hirex_saved_paths" = st "hirex_saved_paths" := by
  rw [persistResults, setItem_get_ne _ _ (by decide),
    persistScoreStep_get_ne _ _ (by decide)]
  simp only [persistSavedStep, h]
  rw [setItem_get_ne _ _ (by decide), setItem_get_ne _ _ (by decide),
    setItem_get_ne _ _ (by decide), setItem_get_ne _ _ (by decide),
    setItem_get_ne _ _ (by decide), setItem_get_ne _ _ (by decide),
    setItem_get_ne _ _ (by decide), setItem_get_ne _ _ (by decide)]

/-- A derived score is written under `hirex_rating_score`. -/
theorem persist_get_score_some (d : Payload) (hz : Bool) (now : Int) (st : Store)
    (n : Int) (h : persistScore d = some n) :
    persistResults d hz now st "hirex_rating_score" = some (toString n) := by
  rw [persistResults, setItem_get_ne _ _ (by decide)]
  simp only [persistScoreStep, h]
  rw [setItem_get_eq]

/-- With no derivable score the key `hirex_rating_score` keeps its prior
value. -/
theorem persist_get_score_none (d : Payload) (hz : Bool) (now : Int) (st : Store)
    (h : persistScore d = none) :
    persistResults d hz now st "hirex_rating_score" = st "hirex_rating_score" := by
  rw [persistResults, setItem_get_ne _ _ (by decide)]
  simp only [persistScoreStep, h]
  rw [persistSavedStep_get_ne _ _ (by decide)]
  rw [setItem_get_ne _ _ (by decide), setItem_get_ne _ _ (by decide),
    setItem_get_ne _ _ (by decide), setItem_get_ne _ _ (by decide),
    setItem_get_ne _ _ (by decide), setItem_get_ne _ _ (by decide),
    setItem_get_ne _ _ (by decide), setItem_get_ne _ _ (by decide)]

/-- `x || d` keeps a non-empty stored string. -/
theorem jsOr_some_of_ne (w d : String) (h : w ≠ "") : jsOr (some w) d = w := by
  simp [jsOr, h]

/-- `x || ""` is the identity on stored strings. -/
theorem jsOr_some_empty (w : String) : jsOr (some w) "" = w := by
  by_cases h : w = "" <;> simp [jsOr, h]

/-- `x || d` with a non-empty default never yields the empty string. -/
theorem jsOr_ne_empty (x : Option String) (d : String) (h : d ≠ "") : jsOr x d ≠ "" := by
  cases x with
  | none => simpa [jsOr]
  | some s =>
    by_cases hs : s = "" <;> simp [jsOr, hs, h]

/-- Whitespace squashing leaves a whitespace-free list unchanged. -/
theorem squashWsAux_id (l : List Char) (h : ∀ c ∈ l, isJsWhitespace c = false) :
    squashWsAux false l = l := by
  induction l with
  | nil => rfl
  | cons c rest ih =>
    have hc := h c (List.mem_cons_self c rest)
    simp only [squashWsAux, hc, Bool.false_eq_true, if_false]
    rw [ih (fun x hx => h x (List.mem_cons_of_mem c hx))]

/-- `replace(/\s+/g, "_")` is the identity on whitespace-free strings. -/
theorem jsReplaceWs_id (s : String) (h : hasNoWs s = true) : jsReplaceWs s = s := by
  cases s with
  | mk data =>
    rw [jsReplaceWs]
    rw [squashWsAux_id]
    intro c hc
    have := (List.all_eq_true.mp h) c hc
    simpa using this

/-! ## Claim theorems -/

/-- Claim C1: a submit whose job-description text trims to empty, or whose
file is missing or not named `*.tex`, shows the validation toast and never
invokes the transport; a submit with `resume.tex` and a non-blank job
description reaches the transport call. -/
theorem submit_validation_gate (file : Option FileInfo) (jdRaw : String) (hz : Bool)
    (oc : TransportOutcome) (now : Int) (st : Store) :
    ((isValidFile file = false ∨ jsTrim jdRaw = "") →
      (runSubmit ⟨file, jdRaw, hz⟩ oc now st).transportInvoked = false ∧
      (runSubmit ⟨file, jdRaw, hz⟩ oc now st).toast =
        "⚠️ Please upload a valid .tex file and paste the job description.") ∧
    (isValidFile file = true → jsTrim jdRaw ≠ "" →
      (runSubmit ⟨file, jdRaw, hz⟩ oc now st).transportInvoked = true) := by
  constructor
  · intro h
    rw [runSubmit.eq_def, if_pos h]
    exact ⟨rfl, rfl⟩
  · intro h1 h2
    rw [runSubmit.eq_def, if_neg (by simp [h1, h2])]
    cases oc with
    | response status bodyText jsonBody =>
      simp only [finallyCleanup]
      split
      · rfl
      · split
        · rfl
        · split <;> rfl
    | abortError => rfl
    | failedToFetch => rfl
    | otherFailure name msg => rfl

/-- Witness for C1 at concrete inputs: `resume.tex` with a non-blank job
description proceeds to transport; a `.pdf` file or a whitespace-only job
description does not. -/
theorem submit_validation_gate_witness :
    (runSubmit ⟨some ⟨"resume.tex"⟩, "Build data pipelines", false⟩ .abortError 0
      emptyStore).transportInvoked = true ∧
    (runSubmit ⟨some ⟨"resume.pdf"⟩, "Build data pipelines", false⟩ .abortError 0
      emptyStore).transportInvoked = false ∧
    (runSubmit ⟨some ⟨"resume.tex"⟩, "   ", false⟩ .abortError 0
      emptyStore).transportInvoked = false := by
  refine ⟨?_, ?_, ?_⟩
  · exact (submit_validation_gate (some ⟨"resume.tex"⟩) "Build data pipelines" false
      .abortError 0 emptyStore).2 (by rfl) (by decide)
  · exact ((submit_validation_gate (some ⟨"resume.pdf"⟩) "Build data pipelines" false
      .abortError 0 emptyStore).1 (Or.inl (by rfl))).1
  · exact ((submit_validation_gate (some ⟨"resume.tex"⟩) "   " false
      .abortError 0 emptyStore).1 (Or.inr (by rfl))).1

/-- Claim C2: a 2xx response whose JSON body has a missing or empty
`tex_string` is handled as an error: nothing is persisted, the error toast
is shown, and no navigation is scheduled. -/
theorem empty_tex_treated_as_error (file : Option FileInfo) (jdRaw : String) (hz : Bool)
    (status : Nat) (bodyText : String) (data : Payload) (now : Int) (st : Store)
    (hfile : isValidFile file = true) (hjd : jsTrim jdRaw ≠ "")
    (hlo : 200 ≤ status) (hhi : status < 300) (htex : texTruthy data = false) :
    (runSubmit ⟨file, jdRaw, hz⟩ (.response status bodyText (.ok data)) now st).store = st ∧
    (runSubmit ⟨file, jdRaw, hz⟩ (.response status bodyText (.ok data)) now st).navigationScheduled
      = false ∧
    (runSubmit ⟨file, jdRaw, hz⟩ (.response status bodyText (.ok data)) now st).toast
      = "❌ Empty LaTeX output from backend." := by
  rw [runSubmit.eq_def, if_neg (by simp [hfile, hjd])]
  simp only [finallyCleanup]
  rw [if_neg (by omega)]
  simp only [htex, Bool.false_eq_true, if_true]
  refine ⟨by trivial, by trivial, by trivial⟩

/-- Witness for C2: a 200 response carrying `tex_string: ""` on a valid
submit leaves the store untouched, schedules no navigation, and shows the
error toast. -/
theorem empty_tex_treated_as_error_witness :
    (runSubmit ⟨some ⟨"resume.tex"⟩, "Build data pipelines", false⟩
      (.response 200 "" (.ok { tex_string := some "" })) 0 emptyStore).store = emptyStore ∧
    (runSubmit ⟨some ⟨"resume.tex"⟩, "Build data pipelines", false⟩
      (.response 200 "" (.ok { tex_string := some "" })) 0 emptyStore).navigationScheduled
      = false := by
  have h := empty_tex_treated_as_error (some ⟨"resume.tex"⟩) "Build data pipelines" false
    200 "" { tex_string := some "" } 0 emptyStore (by rfl) (by decide)
    (by decide) (by decide) (by rfl)
  exact ⟨h.1, h.2.1⟩

/-- Claim C3: whatever the transport outcome (success, HTTP error, JSON
error, network failure, timeout or cancellation) and whether or not a
cancel click arrives afterwards, the handler ends with the form re-enabled
and the cancel affordance gone, i.e. idle. -/
theorem cleanup_always_runs (inp : SubmitInput) (oc : TransportOutcome) (now : Int)
    (st : Store) (clicked : Bool) :
    isIdle (lateCancelClick (runSubmit inp oc now st) clicked) := by
  rw [runSubmit.eq_def]
  split
  · simp [lateCancelClick, isIdle]
  · simp [lateCancelClick, finallyCleanup, isIdle]

/-- The payload of the C4 counterexample: a well-formed result whose
organization name contains a space. -/
def wsPayload : Payload :=
  { tex_string := some "x", company_name := some "Acme Corp", role := some "ML Engineer",
    pdf_base64 := some "QUJD" }

/-- Counterexample to claim C4 as stated: persisting a payload whose
organization name is "Acme Corp" and loading on a fresh preview page
yields "Acme_Corp" â the load step replaces whitespace runs with
underscores, so whitespace-containing names do not round-trip
identically. -/
theorem roundtrip_counterexample :
    (previewLoad (persistResults wsPayload true 0 emptyStore)).company = "Acme_Corp" ∧
    "Acme_Corp" ≠ "Acme Corp" := by
  exact ⟨by rfl, by decide⟩

/-- Claim C4 (amended): a persisted result loads back with the identical
document text and binary fields; organization and position load back with
every whitespace run replaced by an underscore, hence identically exactly
when they contain no whitespace. -/
theorem roundtrip_amended (d : Payload) (hz : Bool) (now : Int) (st : Store) :
    (previewLoad (persistResults d hz now st)).texString = jsOr d.tex_string "" ∧
    (previewLoad (persistResults d hz now st)).pdfB64 = jsOr d.pdf_base64 "" ∧
    (previewLoad (persistResults d hz now st)).pdfB64Humanized
      = jsOr d.pdf_base64_humanized "" ∧
    (previewLoad (persistResults d hz now st)).company
      = jsReplaceWs (jsOr d.company_name "UnknownCompany") ∧
    (previewLoad (persistResults d hz now st)).role
      = jsReplaceWs (jsOr d.role "UnknownRole") ∧
    (hasNoWs (jsOr d.company_name "UnknownCompany") = true →
      (previewLoad (persistResults d hz now st)).company
        = jsOr d.company_name "UnknownCompany") ∧
    (hasNoWs (jsOr d.role "UnknownRole") = true →
      (previewLoad (persistResults d hz now st)).role = jsOr d.role "UnknownRole") := by
  have hco : (previewLoad (persistResults d hz now st)).company
      = jsReplaceWs (jsOr d.company_name "UnknownCompany") := by
    simp only [previewLoad, persist_get_company]
    rw [jsOr_some_of_ne _ _ (jsOr_ne_empty _ _ (by decide))]
  have hro : (previewLoad (persistResults d hz now st)).role
      = jsReplaceWs (jsOr d.role "UnknownRole") := by
    simp only [previewLoad, persist_get_role]
    rw [jsOr_some_of_ne _ _ (jsOr_ne_empty _ _ (by decide))]
  refine ⟨?_, ?_, ?_, hco, hro, ?_, ?_⟩
  · simp only [previewLoad, persist_get_tex]
    rw [jsOr_some_empty]
  · simp only [previewLoad, persist_get_pdf]
    rw [jsOr_some_empty]
  · simp only [previewLoad, persist_get_pdfHumanized]
    rw [jsOr_some_empty]
  · intro hnw
    rw [hco, jsReplaceWs_id _ hnw]
  · intro hnw
    rw [hro, jsReplaceWs_id _ hnw]

/-- Witness for C4 (amended) at a concrete input: a whitespace-free
organization name round-trips identically, and the text field always
does. -/
theorem roundtrip_amended_witness :
    (previewLoad (persistResults { tex_string := some "x", company_name := some "Acme" }
      false 0 emptyStore)).company = jsOr (some "Acme") "UnknownCompany" ∧
    (previewLoad (persistResults { tex_string := some "x", company_name := some "Acme" }
      false 0 emptyStore)).texString = "x" := by
  constructor
  · exact (roundtrip_amended { tex_string := some "x", company_name := some "Acme" }
      false 0 emptyStore).2.2.2.2.2.1 (by rfl)
  · have h := (roundtrip_amended { tex_string := some "x", company_name := some "Acme" }
      false 0 emptyStore).1
    rw [h]
    rfl

/-- Claim C5: the persisted fit score uses the explicit numeric score
field when present, else the coverage ratio scaled to 0–100 and rounded
half-up (`⌊c · 100 + 1/2⌋`), else no write happens and the key keeps its
prior value. -/
theorem fit_score_precedence (d : Payload) (hz : Bool) (now : Int) (st : Store) :
    (∀ r, d.rating_score = some r →
      persistResults d hz now st "hirex_rating_score" = some (toString r)) ∧
    (d.rating_score = none → ∀ c, d.coverage_ratio = some c →
      persistResults d hz now st "hirex_rating_score"
        = some (toString (jsRound (scaleBy100 c))) ∧
      jsRound (scaleBy100 c) = Int.floor (c * 100 + 1 / 2)) ∧
    (d.rating_score = none → d.coverage_ratio = none →
      persistResults d hz now st "hirex_rating_score" = st "hirex_rating_score") := by
  refine ⟨?_, ?_, ?_⟩
  · intro r hr
    exact persist_get_score_some d hz now st r (by simp [persistScore, hr])
  · intro h0 c hc
    refine ⟨persist_get_score_some d hz now st _ (by simp [persistScore, h0, hc]), ?_⟩
    rw [scaleBy100_eq, jsRound_eq_floor]
  · intro h0 hc
    exact persist_get_score_none d hz now st (by simp [persistScore, h0, hc])

/-- Witness for C5: an explicit score 92 is stored as "92"; with no
explicit score, `coverage_ratio` 873/1000 stores "87". -/
theorem fit_score_precedence_witness :
    (persistResults { tex_string := some "x", rating_score := some 92 } false 0 emptyStore)
      "hirex_rating_score" = some "92" ∧
    (persistResults { tex_string := some "x", coverage_ratio := some (mkRat 873 1000) }
      false 0 emptyStore) "hirex_rating_score" = some "87" := by
  constructor
  · exact (fit_score_precedence { tex_string := some "x", rating_score := some 92 }
      false 0 emptyStore).1 92 (by rfl)
  · have h := ((fit_score_precedence
      { tex_string := some "x", coverage_ratio := some (mkRat 873 1000) }
      false 0 emptyStore).2.1 (by rfl) (mkRat 873 1000) (by rfl)).1
    rw [h]
    rfl

/-- Claim C6: the reset handler removes exactly the eleven namespaced
result keys and leaves every other key — in particular the standalone
`hirex-theme` and `hirex-use-humanize` preference keys — unchanged. -/
theorem reset_clears_exactly (st : Store) (k : String) :
    (k ∈ resetKeys → resetHandler st k = none) ∧
    (k ∉ resetKeys → resetHandler st k = st k) ∧
    resetHandler st "hirex-theme" = st "hirex-theme" ∧
    resetHandler st "hirex-use-humanize" = st "hirex-use-humanize" := by
  have hmain : ∀ q : String, (q ∈ resetKeys → resetHandler st q = none) ∧
      (q ∉ resetKeys → resetHandler st q = st q) := by
    intro q
    constructor
    · intro hq
      simp only [resetKeys, List.mem_cons, List.not_mem_nil, or_false] at hq
      rcases hq with h|h|h|h|h|h|h|h|h|h|h <;> subst h <;> rfl
    · intro hq
      simp only [resetKeys, List.mem_cons, List.not_mem_nil, or_false, not_or] at hq
      obtain ⟨h1, h2, h3, h4, h5, h6, h7, h8, h9, h10, h11⟩ := hq
      simp [resetHandler, resetKeys, removeItem, h1, h2, h3, h4, h5, h6, h7, h8, h9,
        h10, h11]
  exact ⟨(hmain k).1, (hmain k).2, (hmain "hirex-theme").2 (by decide),
    (hmain "hirex-use-humanize").2 (by decide)⟩

/-- Witness for C6: on a store holding a result key and the theme key,
reset removes the result key and leaves the theme key with its value. -/
theorem reset_clears_exactly_witness :
    resetHandler (setItem "hirex-theme" "light" (setItem "hirex_tex" "x" emptyStore))
      "hirex_tex" = none ∧
    resetHandler (setItem "hirex-theme" "light" (setItem "hirex_tex" "x" emptyStore))
      "hirex-theme" = some "light" := by
  constructor
  · exact (reset_clears_exactly (setItem "hirex-theme" "light"
      (setItem "hirex_tex" "x" emptyStore)) "hirex_tex").1 (by decide)
  · have h := (reset_clears_exactly (setItem "hirex-theme" "light"
      (setItem "hirex_tex" "x" emptyStore)) "hirex-theme").2.2.1
    rw [h]
    rfl

/-- First-submission payload of the C7 counterexample: carries a score and
a saved-paths array. -/
def firstPayload : Payload :=
  { tex_string := some "t1", rating_score := some 90, saved_paths := some ["a.pdf"] }

/-- Second-submission payload of the C7 counterexample: a successful
result with no score fields and no saved-paths array. -/
def secondPayload : Payload := { tex_string := some "t2" }

/-- Counterexample to claim C7 as stated: after a second successful
submission whose payload has no score and no saved-paths array, the first
submission's fit score and saved-path list are still in the store — the
overwrite is not full. -/
theorem overwrite_counterexample :
    (persistResults secondPayload false 1 (persistResults firstPayload true 0 emptyStore))
      "hirex_rating_score" = some "90" ∧
    (persistResults secondPayload false 1 (persistResults firstPayload true 0 emptyStore))
      "hirex_saved_paths" = some "[\"a.pdf\"]" ∧
    secondPayload.rating_score = none ∧ secondPayload.saved_paths = none := by
  exact ⟨by rfl, by rfl, rfl, rfl⟩

/-- Claim C7 (amended): a subsequent persist overwrites every
unconditionally written field with the second payload's values; the
saved-path list and the fit score are overwritten only when the second
payload provides them (an array / a derivable score), otherwise their
prior values remain. -/
theorem overwrite_amended (d2 : Payload) (hz2 : Bool) (t2 : Int) (st1 : Store) :
    persistResults d2 hz2 t2 st1 "hirex_tex" = some (jsOr d2.tex_string "") ∧
    persistResults d2 hz2 t2 st1 "hirex_pdf" = some (jsOr d2.pdf_base64 "") ∧
    persistResults d2 hz2 t2 st1 "hirex_pdf_humanized"
      = some (jsOr d2.pdf_base64_humanized "") ∧
    persistResults d2 hz2 t2 st1 "hirex_timestamp" = some (toString t2) ∧
    persistResults d2 hz2 t2 st1 "hirex_company"
      = some (jsOr d2.company_name "UnknownCompany") ∧
    persistResults d2 hz2 t2 st1 "hirex_role" = some (jsOr d2.role "UnknownRole") ∧
    persistResults d2 hz2 t2 st1 "hirex_use_humanize"
      = some (if hz2 then "true" else "false") ∧
    persistResults d2 hz2 t2 st1 "hirex_version" = some "v1.1.0" ∧
    persistResults d2 hz2 t2 st1 "hirex_rating_history"
      = some (jsonStringifyIntList ((d2.rating_history).getD
          ((d2.coverage_history).getD []))) ∧
    (∀ l, d2.saved_paths = some l →
      persistResults d2 hz2 t2 st1 "hirex_saved_paths" = some (jsonStringifyStrList l)) ∧
    (d2.saved_paths = none →
      persistResults d2 hz2 t2 st1 "hirex_saved_paths" = st1 "hirex_saved_paths") ∧
    (∀ n, persistScore d2 = some n →
      persistResults d2 hz2 t2 st1 "hirex_rating_score" = some (toString n)) ∧
    (persistScore d2 = none →
      persistResults d2 hz2 t2 st1 "hirex_rating_score" = st1 "hirex_rating_score") :=
  ⟨persist_get_tex d2 hz2 t2 st1, persist_get_pdf d2 hz2 t2 st1,
    persist_get_pdfHumanized d2 hz2 t2 st1, persist_get_timestamp d2 hz2 t2 st1,
    persist_get_company d2 hz2 t2 st1, persist_get_role d2 hz2 t2 st1,
    persist_get_useHumanize d2 hz2 t2 st1, persist_get_version d2 hz2 t2 st1,
    persist_get_history d2 hz2 t2 st1,
    fun l h => persist_get_saved_some d2 hz2 t2 st1 l h,
    fun h => persist_get_saved_none d2 hz2 t2 st1 h,
    fun n h => persist_get_score_some d2 hz2 t2 st1 n h,
    fun h => persist_get_score_none d2 hz2 t2 st1 h⟩

/-- Witness for C7 (amended): the second persist overwrites the document
text and, lacking a saved-paths array, leaves that key at its prior
value. -/
theorem overwrite_amended_witness :
    persistResults secondPayload false 1 (persistResults firstPayload true 0 emptyStore)
      "hirex_tex" = some "t2" ∧
    persistResults secondPayload false 1 (persistResults firstPayload true 0 emptyStore)
      "hirex_saved_paths"
      = (persistResults firstPayload true 0 emptyStore) "hirex_saved_paths" := by
  constructor
  · have h := (overwrite_amended secondPayload false 1
      (persistResults firstPayload true 0 emptyStore)).1
    rw [h]
    rfl
  · exact (overwrite_amended secondPayload false 1
      (persistResults firstPayload true 0 emptyStore)).2.2.2.2.2.2.2.2.2.2.1 (by rfl)

/-- `String` append acts as list append on the character data. -/
theorem data_append (a b : String) : (a ++ b).data = a.data ++ b.data := by
  cases a
  cases b
  rfl

/-- The spec's tier label is always one of the five label strings. -/
theorem specFitTierLabel_mem (n : Int) : specFitTierLabel n ∈ tierLabels := by
  unfold specFitTierLabel tierLabels
  split_ifs <;> simp

/-- No tier label contains the character `p`. -/
theorem tierLabels_no_p : ∀ l ∈ tierLabels, 'p' ∉ l.data := by decide

/-- No tier label contains the character `/`. -/
theorem tierLabels_no_slash : ∀ l ∈ tierLabels, '/' ∉ l.data := by decide

/-- The card heading is not a tier label. -/
theorem heading_ne_tierLabel : ∀ l ∈ tierLabels, "🎯 JD Fit Score" ≠ l := by decide

/-- The rounds line of the card is never a tier label. -/
theorem roundsText_ne_tierLabel (m : Nat) (l : String) (hl : l ∈ tierLabels) :
    "Optimized in " ++ toString m ++ " round(s)" ≠ l := by
  intro he
  have hp : 'p' ∈ ("Optimized in " ++ toString m ++ " round(s)").data := by
    rw [data_append, data_append]
    exact List.mem_append.mpr (Or.inl (List.mem_append.mpr (Or.inl (by decide))))
  rw [he] at hp
  exact tierLabels_no_p l hl hp

/-- The score line of the card is never a tier label. -/
theorem scoreText_ne_tierLabel (z : Int) (l : String) (hl : l ∈ tierLabels) :
    toString z ++ "/100" ≠ l := by
  intro he
  have hp : '/' ∈ (toString z ++ "/100").data := by
    rw [data_append]
    exact List.mem_append.mpr (Or.inr (by decide))
  rw [he] at hp
  exact tierLabels_no_slash l hl hp

/-- Counterexample to claim C8 as stated: with a cached fit score of 95
the spec's tier computation says "Excellent", but the rendered card holds
exactly the heading, the round count and "95/100" — no tier label is
computed, displayed or persisted anywhere in the load. -/
theorem tier_label_counterexample :
    specFitTierLabel 95 = "Excellent" ∧
    previewScoreCard (setItem "hirex_rating_score" "95" emptyStore) =
      some ⟨"🎯 JD Fit Score", "Optimized in 1 round(s)", "95/100"⟩ ∧
    strContains "🎯 JD Fit Score" "Excellent" = false ∧
    strContains "Optimized in 1 round(s)" "Excellent" = false ∧
    strContains "95/100" "Excellent" = false := by
  exact ⟨by rfl, by rfl, by rfl, by rfl, by rfl⟩

/-- Claim C8 (amended): on every load the preview shows a fit-score card
exactly when the cached score parses to a number greater than 0; the card
then holds the fixed heading, the round count line, and the numeric score
as "score/100"; no fit-tier label is computed — none of the card's three
texts ever equals a tier-label string. -/
theorem score_card_amended (st : Store) :
    ((previewScoreCard st).isSome ↔
      ∃ sc, (previewLoad st).ratingScore = some sc ∧ 0 < sc) ∧
    (∀ c, previewScoreCard st = some c →
      c.heading = "🎯 JD Fit Score" ∧
      (∃ sc, (previewLoad st).ratingScore = some sc ∧ 0 < sc ∧
        c.scoreText = toString sc ++ "/100" ∧
        c.roundsText = "Optimized in " ++
          toString (if (previewLoad st).ratingRounds = 0 then 1
            else (previewLoad st).ratingRounds) ++ " round(s)") ∧
      (∀ n : Int, c.heading ≠ specFitTierLabel n ∧ c.roundsText ≠ specFitTierLabel n ∧
        c.scoreText ≠ specFitTierLabel n)) := by
  rcases hsc : (previewLoad st).ratingScore with _ | sc
  · constructor
    · simp [previewScoreCard, hsc]
    · intro c hc
      simp [previewScoreCard, hsc] at hc
  · by_cases hpos : 0 < sc
    · have hcard : previewScoreCard st = some
          { heading := "🎯 JD Fit Score"
            roundsText := "Optimized in " ++
              toString (if (previewLoad st).ratingRounds = 0 then 1
                else (previewLoad st).ratingRounds) ++ " round(s)"
            scoreText := toString sc ++ "/100" } := by
        simp [previewScoreCard, hsc, hpos]
      constructor
      · rw [hcard]
        simp only [Option.isSome_some, true_iff]
        exact ⟨sc, rfl, hpos⟩
      · intro c hc
        rw [hcard] at hc
        cases Option.some_inj.mp hc
        refine ⟨rfl, ⟨sc, rfl, hpos, rfl, rfl⟩, ?_⟩
        intro n
        exact ⟨heading_ne_tierLabel _ (specFitTierLabel_mem n),
          roundsText_ne_tierLabel _ _ (specFitTierLabel_mem n),
          scoreText_ne_tierLabel sc _ (specFitTierLabel_mem n)⟩
    · have hcard : previewScoreCard st = none := by
        simp [previewScoreCard, hsc, hpos]
      constructor
      · rw [hcard]
        simp only [Option.isSome_none, Bool.false_eq_true, false_iff]
        rintro ⟨sc2, heq, hp2⟩
        cases Option.some_inj.mp heq
        exact hpos hp2
      · intro c hc
        rw [hcard] at hc
        exact absurd hc (by simp)

/-- Witness for C8 (amended): with a cached score of 92 the card is shown,
its score line is "92/100", and that line is not the tier label the spec
would compute for 92. -/
theorem score_card_amended_witness :
    previewScoreCard (setItem "hirex_rating_score" "92" emptyStore) =
      some ⟨"🎯 JD Fit Score", "Optimized in 1 round(s)", "92/100"⟩ ∧
    ("92/100" : String) ≠ specFitTierLabel 92 := by
  constructor
  · rfl
  · have h := (score_card_amended (setItem "hirex_rating_score" "92" emptyStore)).2
      ⟨"🎯 JD Fit Score", "Optimized in 1 round(s)", "92/100"⟩ (by rfl)
    exact (h.2.2 92).2.2

/-- Claim C9: the storage wrappers never raise — an underlying failure on
read surfaces as `none` and on write as `false`, a successful underlying
operation surfaces its value / `true` — and a malformed stored history on
the preview's typed read yields the default round count 0 instead of an
error. -/
theorem storage_adapter_safe (ls : RawStorage) (k v : String) :
    (∀ e, ls.getItem k = .error e → lsGet ls k = none) ∧
    (∀ r, ls.getItem k = .ok r → lsGet ls k = r) ∧
    (∀ e, ls.setItem k v = .error e → lsSet ls k v = false) ∧
    (∀ u, ls.setItem k v = .ok u → lsSet ls k v = true) ∧
    (∀ (st : Store) raw, st "hirex_rating_history" = some raw →
      jsonParseIntList raw = none → (previewLoad st).ratingRounds = 0) := by
  refine ⟨?_, ?_, ?_, ?_, ?_⟩
  · intro e h
    simp [lsGet, h]
  · intro r h
    simp [lsGet, h]
  · intro e h
    simp [lsSet, h]
  · intro u h
    simp [lsSet, h]
  · intro st raw hst hparse
    simp only [previewLoad, hst]
    by_cases hraw : raw = ""
    · subst hraw
      rfl
    · rw [jsOr_some_of_ne _ _ hraw, hparse]

/-- Witness for C9: a storage that throws on every access yields `none`
from get and `false` from set, and a stored history of "not json" loads
as round count 0. -/
theorem storage_adapter_safe_witness :
    lsGet ⟨fun _ => .error "quota", fun _ _ => .error "quota"⟩ "hirex-theme" = none ∧
    lsSet ⟨fun _ => .error "quota", fun _ _ => .error "quota"⟩ "hirex-theme" "dark"
      = false ∧
    (previewLoad (setItem "hirex_rating_history" "not json" emptyStore)).ratingRounds
      = 0 := by
  refine ⟨?_, ?_, ?_⟩
  · exact (storage_adapter_safe ⟨fun _ => .error "quota", fun _ _ => .error "quota"⟩
      "hirex-theme" "dark").1 "quota" rfl
  · exact (storage_adapter_safe ⟨fun _ => .error "quota", fun _ _ => .error "quota"⟩
      "hirex-theme" "dark").2.2.1 "quota" rfl
  · exact (storage_adapter_safe ⟨fun _ => .error "quota", fun _ _ => .error "quota"⟩
      "x" "y").2.2.2.2 (setItem "hirex_rating_history" "not json" emptyStore)
      "not json" (by rfl) (by rfl)

/-- Counterexample to claim C10 as stated for the preview page's local
channel: message A is shown at t = 0 for 2500 ms and message B at
t = 1000 for 2500 ms; at t = 2500 the first call's timer — which
`showToast` never clears — dismisses the toast, 1000 ms before B's own
duration ends, so the second message does not stay for its full
duration. -/
theorem toast_timer_counterexample :
    (previewToastElapse (previewToastShow (previewToastElapse
      (previewToastShow previewToastInit "A" 2500 0) 1000) "B" 2500 1000) 2500).text
      = "B" ∧
    previewToastVisible (previewToastElapse (previewToastShow (previewToastElapse
      (previewToastShow previewToastInit "A" 2500 0) 1000) "B" 2500 1000) 2500)
      = false ∧
    (2500 : Nat) < 1000 + 2500 := by
  exact ⟨by rfl, by rfl, by decide⟩

/-- Claim C10 (amended): on the global Notification Channel
(`HIREX.toast`) a second show within the first's duration leaves exactly
one message — the second — visible, clears the first call's timer, and
keeps the second message visible until its own full duration elapses,
dismissing it then; the preview page's local `showToast` replaces the
text but does not clear the first timer (see the counterexample). -/
theorem toast_replace_amended (g : GlobalToast) (m1 m2 : String) (d1 d2 t1 t2 : Nat)
    (_hin : t2 < t1 + d1) (s2 : GlobalToast)
    (hs2 : s2 = hirexToastShow (hirexToastElapse (hirexToastShow g m1 d1 t1) t2) m2 d2 t2) :
    s2.text = m2 ∧ s2.visibleClass = true ∧
    (∀ t, t < t2 + d2 → (hirexToastElapse s2 t).visibleClass = true ∧
      (hirexToastElapse s2 t).text = m2) ∧
    (hirexToastElapse s2 (t2 + d2)).visibleClass = false := by
  subst hs2
  refine ⟨rfl, rfl, ?_, ?_⟩
  · intro t ht
    simp only [hirexToastShow, hirexToastElapse]
    rw [if_neg (by omega)]
    exact ⟨rfl, rfl⟩
  · simp only [hirexToastShow, hirexToastElapse]
    rw [if_pos (le_refl _)]

/-- Witness for C10 (amended): with the same schedule as the
counterexample (A at 0, B at 1000, both 2500 ms) the global channel still
shows B at t = 2500, and dismisses it at t = 3500. -/
theorem toast_replace_amended_witness :
    (hirexToastElapse (hirexToastShow (hirexToastElapse
      (hirexToastShow ⟨"", false, none⟩ "A" 2500 0) 1000) "B" 2500 1000) 2500).visibleClass
      = true ∧
    (hirexToastElapse (hirexToastShow (hirexToastElapse
      (hirexToastShow ⟨"", false, none⟩ "A" 2500 0) 1000) "B" 2500 1000) 3500).visibleClass
      = false := by
  have h := toast_replace_amended ⟨"", false, none⟩ "A" "B" 2500 2500 0 1000
    (by decide) _ rfl
  exact ⟨(h.2.2.1 2500 (by decide)).1, h.2.2.2⟩

end Hirex
